import Mathlib

/-
Verification development for the Altimetry-Interpolation repository.

The repository contains two Julia modules named `DivandAltimetry` (embedded in
README.md; the first built on `divand`, the second on `DIVAnd`) and a Python
notebook `run_diva2D_altimetry.ipynb` that drives the Diva solver: a mesh
generation stage followed by a per-data-file analysis loop.  The definitions
below are shallow embeddings of those functions; floating point numbers are
modelled by rationals together with an explicit NaN marker, Julia exceptions by
an `Except` error monad, and the file system by a function from file names to
optional datasets.
-/

/-- Exception values that the embedded Julia code can raise.  `keyError` models
indexing a dataset with an absent variable name, `boundsError` models Julia's
BoundsError from `collection[1]` on an empty collection, `methodError` models
calling `shiftlon` (typed `::Number`) on `missing`, `missingVariableError` is
the typed error the specification's taxonomy prescribes (never raised by the
code as written), and `ioError` stands for failures of external effects such as
`shutil.copy2` or the solver invocation. -/
inductive JErr where
  | keyError (name : String)
  | boundsError
  | methodError
  | missingVariableError (name : String)
  | ioError (msg : String)
deriving DecidableEq

/-- A float value as produced by `coalesce.(v, NaN)`: either a real number or
the NaN sentinel used for missing data. -/
inductive RFloat where
  | real (q : ℚ)
  | nan
deriving DecidableEq

/-- An element of a Julia vector in this code base: the value `nothing`
(promoted into a vector by `vcat`), the value `missing` (netCDF fill), or an
ordinary value. -/
inductive JVal (α : Type) where
  | jnothing
  | jmissing
  | jval (a : α)
deriving DecidableEq

/-- A column returned by a loader: either the scalar `nothing` (file absent or
empty file list) or a vector of elements. -/
inductive JCol (α : Type) where
  | jnothing
  | jarr (xs : List (JVal α))
deriving DecidableEq

/-- The elements of a column; the scalar `nothing` has none. -/
def JCol.elems {α : Type} : JCol α → List (JVal α)
  | .jnothing => []
  | .jarr xs => xs

/-- Julia's `vcat` restricted to the shapes occurring in the loaders: two
vectors concatenate; the scalar `nothing` is promoted to a one-element piece,
exactly as `vcat(nothing, [x])` yields `[nothing, x]` in Julia. -/
def vcat {α : Type} : JCol α → JCol α → JCol α
  | .jnothing, .jnothing => .jarr [.jnothing, .jnothing]
  | .jnothing, .jarr ys => .jarr (.jnothing :: ys)
  | .jarr xs, .jnothing => .jarr (xs ++ [.jnothing])
  | .jarr xs, .jarr ys => .jarr (xs ++ ys)

/-- `shiftlon(longitude)` from both `DivandAltimetry` modules: subtract 360
from the longitude if the value is larger than 180. -/
def shiftlon (longitude : ℚ) : ℚ :=
  if longitude > 180 then longitude - 360 else longitude

/-- A netCDF dataset as the first module sees it: variables addressed by their
on-disk name (`ds["longitude"]`, `ds[varname]`, ...). -/
abbrev Dataset1 := List (String × List ℚ)

/-- `ds[name]`: look a variable up by name; raises a KeyError-style exception
when the name is absent, as NCDatasets does. -/
def dsgetvar (ds : Dataset1) (name : String) : Except JErr (List ℚ) :=
  match ds.lookup name with
  | some xs => .ok xs
  | none => .error (.keyError name)

/-- The tuple `(obsval, obslon, obslat, obsdepth, obstime)` returned by the
first module's `loadaviso_alongtrack`, together with the warnings emitted while
producing it. -/
structure LoadResult1 where
  warnings : List String
  obsval : JCol ℚ
  obslon : JCol ℚ
  obslat : JCol ℚ
  obsdepth : JCol ℚ
  obstime : JCol ℚ
deriving DecidableEq

/-- First module, `loadaviso_alongtrack(datafile::String, varname)` (default
`varname = "SLA"`): when the file exists, read longitude, latitude, time and
the selected variable, set depth to zeros of the same length as the values, and
shift the longitudes; otherwise return `nothing` for every output. -/
def loadaviso_alongtrack (fs : String → Option Dataset1) (datafile : String)
    (varname : String) : Except JErr LoadResult1 :=
  match fs datafile with
  | some ds =>
    match dsgetvar ds "longitude" with
    | .error e => .error e
    | .ok obslon =>
      match dsgetvar ds "latitude" with
      | .error e => .error e
      | .ok obslat =>
        match dsgetvar ds "time" with
        | .error e => .error e
        | .ok obstime =>
          match dsgetvar ds varname with
          | .error e => .error e
          | .ok obsval =>
            .ok { warnings := []
                  obsval := .jarr (obsval.map .jval)
                  obslon := .jarr ((obslon.map shiftlon).map .jval)
                  obslat := .jarr (obslat.map .jval)
                  obsdepth := .jarr ((obsval.map (fun _ => (0 : ℚ))).map .jval)
                  obstime := .jarr (obstime.map .jval) }
  | none =>
    .ok { warnings := [], obsval := .jnothing, obslon := .jnothing,
          obslat := .jnothing, obsdepth := .jnothing, obstime := .jnothing }

/-- The `for datafile in filelist[2:end]` loop of the first module's filelist
overload: load each remaining file and `vcat` its columns onto the
accumulators. -/
def loadaviso_alongtrack_vcatloop (fs : String → Option Dataset1)
    (varname : String) (acc : LoadResult1) :
    List String → Except JErr LoadResult1
  | [] => .ok acc
  | datafile :: rest =>
    match loadaviso_alongtrack fs datafile varname with
    | .error e => .error e
    | .ok r =>
      loadaviso_alongtrack_vcatloop fs varname
        { warnings := acc.warnings
          obsval := vcat acc.obsval r.obsval
          obslon := vcat acc.obslon r.obslon
          obslat := vcat acc.obslat r.obslat
          obsdepth := vcat acc.obsdepth r.obsdepth
          obstime := vcat acc.obstime r.obstime } rest

/-- First module, `loadaviso_alongtrack(filelist::AbstractVector, varname)`:
an empty list warns "Empty file list" and yields `nothing` for every output;
otherwise the first file is loaded and the remaining files are `vcat`-ed on in
order. -/
def loadaviso_alongtrack_filelist (fs : String → Option Dataset1)
    (filelist : List String) (varname : String) : Except JErr LoadResult1 :=
  match filelist with
  | [] =>
    .ok { warnings := ["Empty file list"], obsval := .jnothing,
          obslon := .jnothing, obslat := .jnothing, obsdepth := .jnothing,
          obstime := .jnothing }
  | f1 :: rest =>
    match loadaviso_alongtrack fs f1 varname with
    | .error e => .error e
    | .ok first => loadaviso_alongtrack_vcatloop fs varname first rest

/-- A netCDF variable as the second module sees it: a `standard_name`
attribute, an optional declared fill value and the raw stored data. -/
structure NCVar where
  standard_name : String
  fillvalue : Option ℚ
  data : List ℚ
deriving DecidableEq

/-- A netCDF dataset as the second module sees it: a list of variables
addressed by attribute. -/
structure Dataset2 where
  vars : List NCVar
deriving DecidableEq

/-- `NCDatasets.varbyattrib(ds, standard_name=sname)`: all variables whose
`standard_name` attribute equals `sname`, in dataset order. -/
def varbyattrib (ds : Dataset2) (sname : String) : List NCVar :=
  ds.vars.filter (fun v => v.standard_name == sname)

/-- Julia's `collection[1]`: the first element, or a BoundsError on an empty
collection (which is what `varbyattrib(...)[1]` raises when no variable
matches). -/
def getindex1 {α : Type} : List α → Except JErr α
  | [] => .error .boundsError
  | x :: _ => .ok x

/-- Reading `v[:]` through NCDatasets: stored values equal to the declared
fill value come back as `missing` (`none`), everything else as a real value. -/
def ncread (v : NCVar) : List (Option ℚ) :=
  v.data.map (fun q => if some q = v.fillvalue then none else some q)

/-- One-argument `coalesce`: returns its argument unchanged (`coalesce(x) = x`
and `coalesce(missing) = missing`). -/
def coalesce1 (x : Option ℚ) : Option ℚ := x

/-- Two-argument `coalesce(x, NaN)`: a missing value becomes NaN, anything
else stays a real value. -/
def coalesceNaN (x : Option ℚ) : RFloat :=
  match x with
  | none => .nan
  | some q => .real q

/-- The broadcast `shiftlon.(obslon)`: `shiftlon` is typed `::Number`, so
applying it to a `missing` element raises a MethodError; the first such element
(left to right) aborts the broadcast. -/
def shiftlonBcast : List (Option ℚ) → Except JErr (List ℚ)
  | [] => .ok []
  | none :: _ => .error .methodError
  | some q :: rest =>
    match shiftlonBcast rest with
    | .error e => .error e
    | .ok ys => .ok (shiftlon q :: ys)

/-- Embed a possibly `missing` value as a vector element. -/
def optJVal (x : Option ℚ) : JVal ℚ :=
  match x with
  | none => .jmissing
  | some q => .jval q

/-- The tuple `(obsval, obslon, obslat, obstime)` returned by the second
module's `loadaviso_alongtrack`, together with the warnings emitted while
producing it. -/
structure LoadResult2 where
  warnings : List String
  obsval : JCol RFloat
  obslon : JCol ℚ
  obslat : JCol ℚ
  obstime : JCol ℚ
deriving DecidableEq

/-- Second module, `loadaviso_alongtrack(datafile::String, stdname)` (default
`stdname = "sea_surface_height_above_sea_level"`): when the file exists,
resolve longitude, latitude, time and the selected quantity by their
`standard_name` attribute (taking element `[1]` of each match list), map
missing values of the quantity to NaN via `coalesce.(−, NaN)`, and shift the
longitudes; otherwise return `nothing` for every output. -/
def loadaviso_alongtrack2 (fs : String → Option Dataset2) (datafile : String)
    (stdname : String) : Except JErr LoadResult2 :=
  match fs datafile with
  | some ds =>
    match getindex1 (varbyattrib ds "longitude") with
    | .error e => .error e
    | .ok lonvar =>
      match getindex1 (varbyattrib ds "latitude") with
      | .error e => .error e
      | .ok latvar =>
        match getindex1 (varbyattrib ds "time") with
        | .error e => .error e
        | .ok timevar =>
          match getindex1 (varbyattrib ds stdname) with
          | .error e => .error e
          | .ok valvar =>
            match shiftlonBcast ((ncread lonvar).map coalesce1) with
            | .error e => .error e
            | .ok obslon2 =>
              .ok { warnings := []
                    obsval := .jarr (((ncread valvar).map coalesceNaN).map .jval)
                    obslon := .jarr (obslon2.map .jval)
                    obslat := .jarr (((ncread latvar).map coalesce1).map optJVal)
                    obstime := .jarr (((ncread timevar).map coalesce1).map optJVal) }
  | none =>
    .ok { warnings := [], obsval := .jnothing, obslon := .jnothing,
          obslat := .jnothing, obstime := .jnothing }

/-- The `for datafile in filelist[2:end]` loop of the second module's filelist
overload. -/
def loadaviso_alongtrack2_vcatloop (fs : String → Option Dataset2)
    (stdname : String) (acc : LoadResult2) :
    List String → Except JErr LoadResult2
  | [] => .ok acc
  | datafile :: rest =>
    match loadaviso_alongtrack2 fs datafile stdname with
    | .error e => .error e
    | .ok r =>
      loadaviso_alongtrack2_vcatloop fs stdname
        { warnings := acc.warnings
          obsval := vcat acc.obsval r.obsval
          obslon := vcat acc.obslon r.obslon
          obslat := vcat acc.obslat r.obslat
          obstime := vcat acc.obstime r.obstime } rest

/-- Second module, `loadaviso_alongtrack(filelist::AbstractVector, stdname)`:
an empty list warns "Empty file list" and yields `nothing` for every output;
otherwise the first file is loaded and the remaining files are `vcat`-ed on in
order. -/
def loadaviso_alongtrack2_filelist (fs : String → Option Dataset2)
    (filelist : List String) (stdname : String) : Except JErr LoadResult2 :=
  match filelist with
  | [] =>
    .ok { warnings := ["Empty file list"], obsval := .jnothing,
          obslon := .jnothing, obslat := .jnothing, obstime := .jnothing }
  | f1 :: rest =>
    match loadaviso_alongtrack2 fs f1 stdname with
    | .error e => .error e
    | .ok first => loadaviso_alongtrack2_vcatloop fs stdname first rest

/-- A stage of the notebook run: the one-time mesh generation (cells 16 to 20)
or the analysis of one data file (an iteration of the cell-22 loop). -/
inductive Stage where
  | meshStage
  | analysisStage (batchfile : String)
deriving DecidableEq

/-- The cell-22 analysis loop, `for datafile in sorted(glob.glob(...))`, with
the body (copy data file, run the solver, copy the result) abstracted as
`step`.  The loop has no exception handler, so the embedding records which
data files were attempted and whether an exception escaped: an `.error` from
`step` ends the loop immediately with that exception pending. -/
def analysisLoopTrace (step : String → Except JErr Unit) :
    List String → List String × Option JErr
  | [] => ([], none)
  | datafile :: rest =>
    match step datafile with
    | .error e => ([datafile], some e)
    | .ok _ =>
      let t := analysisLoopTrace step rest
      (datafile :: t.1, t.2)

/-- The notebook executed top to bottom as a script: the mesh stage (contour
and parameter staging plus `Diva2DMesh().make` plus the mesh read, abstracted
as `meshmake`) runs first; only if it succeeds does the analysis loop over the
data files run.  An uncaught exception aborts everything after it. -/
def runScript (meshmake : Except JErr Unit) (step : String → Except JErr Unit)
    (datafiles : List String) : List Stage × Option JErr :=
  match meshmake with
  | .error e => ([.meshStage], some e)
  | .ok _ =>
    let t := analysisLoopTrace step datafiles
    (.meshStage :: t.1.map .analysisStage, t.2)

/-- Python exception raised by numpy fancy indexing with an out-of-range
index. -/
inductive PyErr where
  | indexError (index : Nat) (size : Nat)
deriving DecidableEq

/-- `np.arange(start, stop, step)` on naturals. -/
def npArange (start stop step : Nat) : List Nat :=
  List.range' start ((stop - start + step - 1) / step) step

/-- Numpy fancy indexing `a[idx]`: bounds-check the indices left to right and
raise IndexError at the first out-of-range one. -/
def npFancyIndex (a : List ℚ) : List Nat → Except PyErr (List ℚ)
  | [] => .ok []
  | i :: rest =>
    if h : i < a.length then
      match npFancyIndex a rest with
      | .error e => .error e
      | .ok ys => .ok (a.get ⟨i, h⟩ :: ys)
    else .error (.indexError i a.length)

/-- The node x-coordinate extraction of `Diva2DMesh.read_from_np` as recorded
in the notebook's traceback (pydiva2d.py, line 991):
`cls.xnode = meshnodes[np.arange(1, cls.nnodes * 3, 3)]`, where `meshnodes` is
the flattened node record array and `nnodes` the node count declared by the
header. -/
def read_from_np_xnode (meshnodes : List ℚ) (nnodes : Nat) :
    Except PyErr (List ℚ) :=
  npFancyIndex meshnodes (npArange 1 (nnodes * 3) 3)

/-- Per-file value column of the second module's loader, used to state what
the filelist overload concatenates. -/
def vals2 (fs : String → Option Dataset2) (stdname f : String) :
    List (JVal RFloat) :=
  match loadaviso_alongtrack2 fs f stdname with
  | .ok r => r.obsval.elems
  | .error _ => []

/-- Per-file longitude column of the second module's loader. -/
def lons2 (fs : String → Option Dataset2) (stdname f : String) :
    List (JVal ℚ) :=
  match loadaviso_alongtrack2 fs f stdname with
  | .ok r => r.obslon.elems
  | .error _ => []

/-- Per-file latitude column of the second module's loader. -/
def lats2 (fs : String → Option Dataset2) (stdname f : String) :
    List (JVal ℚ) :=
  match loadaviso_alongtrack2 fs f stdname with
  | .ok r => r.obslat.elems
  | .error _ => []

/-- Per-file time column of the second module's loader. -/
def times2 (fs : String → Option Dataset2) (stdname f : String) :
    List (JVal ℚ) :=
  match loadaviso_alongtrack2 fs f stdname with
  | .ok r => r.obstime.elems
  | .error _ => []

/-- Per-file value column of the first module's loader. -/
def vals1 (fs : String → Option Dataset1) (varname f : String) :
    List (JVal ℚ) :=
  match loadaviso_alongtrack fs f varname with
  | .ok r => r.obsval.elems
  | .error _ => []

/-- Per-file longitude column of the first module's loader. -/
def lons1 (fs : String → Option Dataset1) (varname f : String) :
    List (JVal ℚ) :=
  match loadaviso_alongtrack fs f varname with
  | .ok r => r.obslon.elems
  | .error _ => []

/-- Per-file latitude column of the first module's loader. -/
def lats1 (fs : String → Option Dataset1) (varname f : String) :
    List (JVal ℚ) :=
  match loadaviso_alongtrack fs f varname with
  | .ok r => r.obslat.elems
  | .error _ => []

/-- Per-file depth column of the first module's loader. -/
def depths1 (fs : String → Option Dataset1) (varname f : String) :
    List (JVal ℚ) :=
  match loadaviso_alongtrack fs f varname with
  | .ok r => r.obsdepth.elems
  | .error _ => []

/-- Per-file time column of the first module's loader. -/
def times1 (fs : String → Option Dataset1) (varname f : String) :
    List (JVal ℚ) :=
  match loadaviso_alongtrack fs f varname with
  | .ok r => r.obstime.elems
  | .error _ => []

/-- Generic fact used for the observation-count part of the concatenation
claim: the length of a flattened map is the sum of the per-piece lengths. -/
lemma flatMap_length_sum {α β : Type} (xs : List α) (f : α → List β) :
    (xs.flatMap f).length = (xs.map (fun x => (f x).length)).sum := by
  induction xs with
  | nil => simp
  | cons a tl ih => simp [ih]

/-- C2 counterexample: the claim fails as stated.  At longitude 180 the result
is 180, which is outside [-180, 180); at longitude 900 (outside one wrap of
[0, 360)) a second application changes the result, so `shiftlon` is not
idempotent on all inputs. -/
theorem c2_shiftlon_counterexample :
    shiftlon 180 = 180 ∧ ¬((-180 : ℚ) ≤ shiftlon 180 ∧ shiftlon 180 < 180) ∧
      shiftlon (shiftlon 900) ≠ shiftlon 900 := by
  refine ⟨by norm_num [shiftlon], by norm_num [shiftlon], by norm_num [shiftlon]⟩

/-- C2 (amended): for longitudes within one wrap of [0, 360) — the bound the
specification itself assumes — `shiftlon` lands in (-180, 180], is congruent
to its input modulo 360, and is idempotent. -/
theorem c2_shiftlon_amended (L : ℚ) (h0 : 0 ≤ L) (h1 : L < 360) :
    (-180 < shiftlon L ∧ shiftlon L ≤ 180) ∧
      (∃ k : ℤ, L - shiftlon L = 360 * k) ∧
      shiftlon (shiftlon L) = shiftlon L := by
  by_cases hL : L > 180
  · have hv : shiftlon L = L - 360 := by unfold shiftlon; rw [if_pos hL]
    have hnot : ¬(L - 360 > 180) := by linarith
    have hv2 : shiftlon (L - 360) = L - 360 := by unfold shiftlon; rw [if_neg hnot]
    rw [hv, hv2]
    exact ⟨⟨by linarith, by linarith⟩, ⟨1, by ring⟩, rfl⟩
  · have hL2 : L ≤ 180 := not_lt.mp hL
    have hv : shiftlon L = L := by unfold shiftlon; rw [if_neg hL]
    rw [hv]
    exact ⟨⟨by linarith, by linarith⟩, ⟨0, by ring⟩, hv⟩

/-- C2 witness at the docstring's own example input 187.2 = 936/5. -/
theorem c2_shiftlon_amended_witness :
    (-180 < shiftlon (936 / 5) ∧ shiftlon (936 / 5) ≤ 180) ∧
      (∃ k : ℤ, (936 / 5 : ℚ) - shiftlon (936 / 5) = 360 * k) ∧
      shiftlon (shiftlon (936 / 5)) = shiftlon (936 / 5) :=
  c2_shiftlon_amended (936 / 5) (by norm_num) (by norm_num)

/-- C3 counterexample: on the empty file list the loader does succeed and does
warn, but what it returns is the scalar `nothing` for every output, which is
not an empty observation collection (`nothing` and the empty vector are
different values). -/
theorem c3_loadmany_empty_counterexample :
    loadaviso_alongtrack2_filelist (fun _ => none) []
        "sea_surface_height_above_sea_level" =
      .ok { warnings := ["Empty file list"], obsval := .jnothing,
            obslon := .jnothing, obslat := .jnothing, obstime := .jnothing } ∧
      (JCol.jnothing : JCol RFloat) ≠ .jarr [] :=
  ⟨rfl, by simp⟩

/-- C3 (amended): both modules' filelist overloads, applied to the empty list,
do not raise: they attach the non-fatal warning "Empty file list" and return
the `nothing` sentinel (not an empty collection) for every output. -/
theorem c3_loadmany_empty_amended (fs1 : String → Option Dataset1)
    (fs2 : String → Option Dataset2) (varname stdname : String) :
    loadaviso_alongtrack_filelist fs1 [] varname =
      .ok { warnings := ["Empty file list"], obsval := .jnothing,
            obslon := .jnothing, obslat := .jnothing, obsdepth := .jnothing,
            obstime := .jnothing } ∧
    loadaviso_alongtrack2_filelist fs2 [] stdname =
      .ok { warnings := ["Empty file list"], obsval := .jnothing,
            obslon := .jnothing, obslat := .jnothing, obstime := .jnothing } :=
  ⟨rfl, rfl⟩

/-- C9: for a path that names no existing file, both modules' single-file
loaders return `nothing` for every output (value, longitude, latitude, depth
where present, time) without raising. -/
theorem c9_missing_file_nothing (fs1 : String → Option Dataset1)
    (fs2 : String → Option Dataset2) (p varname stdname : String)
    (h1 : fs1 p = none) (h2 : fs2 p = none) :
    loadaviso_alongtrack fs1 p varname =
      .ok { warnings := [], obsval := .jnothing, obslon := .jnothing,
            obslat := .jnothing, obsdepth := .jnothing, obstime := .jnothing } ∧
    loadaviso_alongtrack2 fs2 p stdname =
      .ok { warnings := [], obsval := .jnothing, obslon := .jnothing,
            obslat := .jnothing, obstime := .jnothing } := by
  unfold loadaviso_alongtrack loadaviso_alongtrack2
  rw [h1, h2]
  exact ⟨rfl, rfl⟩

/-- C9 witness on the empty file system and a concrete path. -/
theorem c9_missing_file_nothing_witness :
    loadaviso_alongtrack (fun _ => none) "absent.nc" "SLA" =
      .ok { warnings := [], obsval := .jnothing, obslon := .jnothing,
            obslat := .jnothing, obsdepth := .jnothing, obstime := .jnothing } ∧
    loadaviso_alongtrack2 (fun _ => none) "absent.nc"
        "sea_surface_height_above_sea_level" =
      .ok { warnings := [], obsval := .jnothing, obslon := .jnothing,
            obslat := .jnothing, obstime := .jnothing } :=
  c9_missing_file_nothing (fun _ => none) (fun _ => none) "absent.nc" "SLA"
    "sea_surface_height_above_sea_level" rfl rfl

/-- C10: for a one-element file list, both modules' filelist overloads return
exactly what the single-file overload returns on that file (the `nfiles > 1`
vcat loop is skipped), including when the single-file load fails or the file
is absent. -/
theorem c10_singleton_list (fs1 : String → Option Dataset1)
    (fs2 : String → Option Dataset2) (f varname stdname : String) :
    loadaviso_alongtrack_filelist fs1 [f] varname =
      loadaviso_alongtrack fs1 f varname ∧
    loadaviso_alongtrack2_filelist fs2 [f] stdname =
      loadaviso_alongtrack2 fs2 f stdname := by
  constructor
  · have hred : loadaviso_alongtrack_filelist fs1 [f] varname =
        match loadaviso_alongtrack fs1 f varname with
        | .error e => .error e
        | .ok first => loadaviso_alongtrack_vcatloop fs1 varname first [] := rfl
    rw [hred]
    cases h : loadaviso_alongtrack fs1 f varname with
    | error e => rfl
    | ok first => rfl
  · have hred : loadaviso_alongtrack2_filelist fs2 [f] stdname =
        match loadaviso_alongtrack2 fs2 f stdname with
        | .error e => .error e
        | .ok first => loadaviso_alongtrack2_vcatloop fs2 stdname first [] := rfl
    rw [hred]
    cases h : loadaviso_alongtrack2 fs2 f stdname with
    | error e => rfl
    | ok first => rfl

/-- Concrete loop body for the three-batch counterexample run: the second
September data file is malformed, so its iteration raises; the other batches
would succeed. -/
def step_fail_b2 : String → Except JErr Unit :=
  fun f =>
    if f = "data_20140902.dat" then .error (.ioError "malformed data file")
    else .ok ()

/-- Loop body in which every batch succeeds. -/
def step_all_ok : String → Except JErr Unit := fun _ => .ok ()

/-- C4 counterexample: with three data files of which the second is malformed,
the cell-22 loop stops at the second file — the third batch is never
attempted and the exception escapes the loop, so a single batch's failure does
abort the run. -/
theorem c4_batch_failure_counterexample :
    analysisLoopTrace step_fail_b2
        ["data_20140901.dat", "data_20140902.dat", "data_20140903.dat"] =
      (["data_20140901.dat", "data_20140902.dat"],
        some (.ioError "malformed data file")) ∧
    "data_20140903.dat" ∉
      (analysisLoopTrace step_fail_b2
        ["data_20140901.dat", "data_20140902.dat", "data_20140903.dat"]).1 := by
  constructor
  · rfl
  · decide

/-- C4 (amended): the analysis loop has no exception handler, so the first
batch whose iteration raises is the last batch attempted: the loop records no
failure, attempts none of the later batches, and the exception propagates out
of the run. -/
theorem c4_batch_failure_aborts (step : String → Except JErr Unit)
    (pre : List String) (f : String) (post : List String) (e : JErr)
    (hok : ∀ g ∈ pre, step g = .ok ())
    (hfail : step f = .error e) :
    analysisLoopTrace step (pre ++ f :: post) = (pre ++ [f], some e) := by
  induction pre with
  | nil => simp [analysisLoopTrace, hfail]
  | cons g tl ih =>
    have hg : step g = .ok () := hok g (by simp)
    have htl : ∀ g2 ∈ tl, step g2 = .ok () := fun g2 h2 => hok g2 (by simp [h2])
    simp [analysisLoopTrace, hg, ih htl]

/-- C4 witness: the amended statement at the concrete three-batch run. -/
theorem c4_batch_failure_aborts_witness :
    analysisLoopTrace step_fail_b2
        (["data_20140901.dat"] ++ "data_20140902.dat" :: ["data_20140903.dat"]) =
      (["data_20140901.dat"] ++ ["data_20140902.dat"],
        some (.ioError "malformed data file")) :=
  c4_batch_failure_aborts step_fail_b2 ["data_20140901.dat"]
    "data_20140902.dat" ["data_20140903.dat"] (.ioError "malformed data file")
    (by intro g hg; rw [List.mem_singleton] at hg; subst hg; rfl) rfl

/-- C8: in every run of the notebook script the mesh stage appears exactly
once in the trace and is the first stage, and if the mesh stage fails the
trace is the mesh stage alone — no analysis batch is attempted. -/
theorem c8_mesh_stage_first_fatal (meshmake : Except JErr Unit)
    (step : String → Except JErr Unit) (datafiles : List String) (e : JErr) :
    ((runScript meshmake step datafiles).1.count .meshStage = 1 ∧
      (runScript meshmake step datafiles).1.head? = some .meshStage) ∧
    (meshmake = .error e →
      (runScript meshmake step datafiles).1 = [.meshStage]) := by
  cases meshmake with
  | error e2 => exact ⟨⟨rfl, rfl⟩, fun _ => rfl⟩
  | ok u =>
    refine ⟨⟨?_, rfl⟩, fun h => by cases h⟩
    have hz : ((analysisLoopTrace step datafiles).1.map
        Stage.analysisStage).count Stage.meshStage = 0 := by
      rw [List.count_eq_zero]
      simp
    simp [runScript, List.count_cons, hz]

/-- C8 witness: a run whose mesh stage fails attempts no analysis batch. -/
theorem c8_mesh_stage_first_fatal_witness :
    (runScript (.error (.ioError "mesh generation failed")) step_all_ok
        ["data_20140901.dat"]).1 = [Stage.meshStage] ∧
    (runScript (.error (.ioError "mesh generation failed")) step_all_ok
        ["data_20140901.dat"]).1.count Stage.meshStage = 1 :=
  ⟨(c8_mesh_stage_first_fatal (.error (.ioError "mesh generation failed"))
      step_all_ok ["data_20140901.dat"] (.ioError "mesh generation failed")).2
      rfl,
   (c8_mesh_stage_first_fatal (.error (.ioError "mesh generation failed"))
      step_all_ok ["data_20140901.dat"] (.ioError "mesh generation failed")).1.1⟩

/-- Fancy indexing with an index list whose prefix is in bounds raises the
IndexError of the first out-of-range index. -/
lemma npFancyIndex_append_oob (a : List ℚ) (idx : List Nat) (j : Nat)
    (rest : List Nat) (hidx : ∀ i ∈ idx, i < a.length) (hj : a.length ≤ j) :
    npFancyIndex a (idx ++ j :: rest) = .error (.indexError j a.length) := by
  induction idx with
  | nil =>
    simp only [List.nil_append, npFancyIndex]
    rw [dif_neg (by omega)]
  | cons i tl ih =>
    have hi : i < a.length := hidx i (by simp)
    have htl : ∀ i2 ∈ tl, i2 < a.length := fun i2 h2 => hidx i2 (by simp [h2])
    simp only [List.cons_append, npFancyIndex, List.append_eq]
    rw [dif_pos hi, ih htl]

/-- C1: at the input recorded in the notebook — a flattened node array of
6704 entries against a header-declared node count of 2236 — the node
extraction of `Diva2DMesh.read_from_np` performs an out-of-range access and
raises `IndexError: index 6706 is out of bounds for axis 0 with size 6704`,
exactly as the notebook output records; it does not raise a FormatError. -/
theorem c1_read_from_np_indexerror :
    read_from_np_xnode (List.replicate 6704 (0 : ℚ)) 2236 =
      .error (.indexError 6706 6704) := by
  have harange : npArange 1 (2236 * 3) 3 = List.range' 1 2236 3 := rfl
  have hsplit := @List.range'_concat 3 1 2235
  have hn1 : (2235 : Nat) + 1 = 2236 := rfl
  have hn2 : (1 : Nat) + 3 * 2235 = 6706 := rfl
  rw [hn1, hn2] at hsplit
  have hmem : ∀ i ∈ List.range' 1 2235 3,
      i < (List.replicate 6704 (0 : ℚ)).length := by
    intro i hi
    rw [List.mem_range'] at hi
    obtain ⟨k, hk, rfl⟩ := hi
    rw [List.length_replicate]
    omega
  have hoob := npFancyIndex_append_oob (List.replicate 6704 (0 : ℚ))
      (List.range' 1 2235 3) 6706 [] hmem
      (by rw [List.length_replicate]; omega)
  unfold read_from_np_xnode
  rw [harange, hsplit]
  rw [List.length_replicate] at hoob
  exact hoob

/-- Unfolding equation for the second module's single-file loader on an
existing file. -/
lemma loadaviso_alongtrack2_of_isfile (fs : String → Option Dataset2)
    (f stdname : String) (ds : Dataset2) (hds : fs f = some ds) :
    loadaviso_alongtrack2 fs f stdname =
      (match getindex1 (varbyattrib ds "longitude") with
       | .error e => .error e
       | .ok lonvar =>
         match getindex1 (varbyattrib ds "latitude") with
         | .error e => .error e
         | .ok latvar =>
           match getindex1 (varbyattrib ds "time") with
           | .error e => .error e
           | .ok timevar =>
             match getindex1 (varbyattrib ds stdname) with
             | .error e => .error e
             | .ok valvar =>
               match shiftlonBcast ((ncread lonvar).map coalesce1) with
               | .error e => .error e
               | .ok obslon2 =>
                 .ok { warnings := []
                       obsval := .jarr (((ncread valvar).map coalesceNaN).map .jval)
                       obslon := .jarr (obslon2.map .jval)
                       obslat := .jarr (((ncread latvar).map coalesce1).map optJVal)
                       obstime := .jarr (((ncread timevar).map coalesce1).map optJVal) }) := by
  unfold loadaviso_alongtrack2
  rw [hds]

/-- An error coming out of the element-1 getter is always a BoundsError. -/
lemma getindex1_error {α : Type} (xs : List α) (e : JErr)
    (h : getindex1 xs = .error e) : e = .boundsError := by
  cases xs with
  | nil =>
    simp only [getindex1] at h
    exact (Except.error.inj h).symm
  | cons x tl => simp [getindex1] at h

/-- Recognizer for the specification's MissingVariableError. -/
def JErr.isMissingVar : JErr → Bool
  | .missingVariableError _ => true
  | _ => false

/-- A dataset carrying coordinates but no variable with the default sea
surface height standard name. -/
def ds6 : Dataset2 :=
  { vars := [ { standard_name := "longitude", fillvalue := none, data := [10] },
              { standard_name := "latitude", fillvalue := none, data := [43] },
              { standard_name := "time", fillvalue := none, data := [5] } ] }

/-- C6 counterexample: on a file with no variable matching the selector the
loader raises a BoundsError (from indexing the empty `varbyattrib` result
with `[1]`), which is not a MissingVariableError. -/
theorem c6_missing_variable_counterexample :
    loadaviso_alongtrack2 (fun f => if f = "adt_file.nc" then some ds6 else none)
        "adt_file.nc" "sea_surface_height_above_sea_level" =
      .error .boundsError ∧
    JErr.boundsError.isMissingVar = false :=
  ⟨rfl, rfl⟩

/-- C6 (amended): whenever the selector matches no variable of an existing
observation file, the second module's loader fails — but with the generic
BoundsError raised by `varbyattrib(ds, stdname)[1]` on the empty match list,
not with a dedicated MissingVariableError. -/
theorem c6_missing_variable_bounds (fs : String → Option Dataset2)
    (f stdname : String) (ds : Dataset2) (hds : fs f = some ds)
    (hvar : varbyattrib ds stdname = []) :
    loadaviso_alongtrack2 fs f stdname = .error .boundsError := by
  rw [loadaviso_alongtrack2_of_isfile fs f stdname ds hds]
  cases hlon : getindex1 (varbyattrib ds "longitude") with
  | error e => rw [getindex1_error _ e hlon]
  | ok lonvar =>
    cases hlat : getindex1 (varbyattrib ds "latitude") with
    | error e => rw [getindex1_error _ e hlat]
    | ok latvar =>
      cases htime : getindex1 (varbyattrib ds "time") with
      | error e => rw [getindex1_error _ e htime]
      | ok timevar =>
        rw [hvar]
        rfl

/-- C6 witness: the amended statement at a concrete dataset with no matching
variable. -/
theorem c6_missing_variable_bounds_witness :
    loadaviso_alongtrack2 (fun _ => some ds6) "another_file.nc"
        "sea_surface_height_above_sea_level" = .error .boundsError :=
  c6_missing_variable_bounds (fun _ => some ds6) "another_file.nc"
    "sea_surface_height_above_sea_level" ds6 rfl rfl

/-- Every element of a netCDF read is either `missing` or a real value
different from the declared fill value. -/
lemma ncread_mem (v : NCVar) (y : Option ℚ) (hy : y ∈ ncread v) :
    y = none ∨ ∃ q, y = some q ∧ some q ≠ v.fillvalue := by
  unfold ncread at hy
  rw [List.mem_map] at hy
  obtain ⟨q0, hq0, rfl⟩ := hy
  by_cases hq : some q0 = v.fillvalue
  · left
    rw [if_pos hq]
  · right
    exact ⟨q0, by rw [if_neg hq], hq⟩

/-- C7: whenever the second module's loader succeeds on an existing file, the
measurement column it returns is a vector each of whose entries is either the
NaN missing sentinel or a real value distinct from the source variable's
declared fill code — no raw fill code leaves the loader. -/
theorem c7_fill_sentinel (fs : String → Option Dataset2) (f stdname : String)
    (ds : Dataset2) (r : LoadResult2) (hds : fs f = some ds)
    (hok : loadaviso_alongtrack2 fs f stdname = .ok r) :
    ∃ valvar xs, getindex1 (varbyattrib ds stdname) = .ok valvar ∧
      r.obsval = .jarr xs ∧
      ∀ x ∈ xs, x = .jval .nan ∨
        ∃ q, x = .jval (.real q) ∧ some q ≠ valvar.fillvalue := by
  rw [loadaviso_alongtrack2_of_isfile fs f stdname ds hds] at hok
  cases hlon : getindex1 (varbyattrib ds "longitude") with
  | error e => rw [hlon] at hok; cases hok
  | ok lonvar =>
    rw [hlon] at hok
    cases hlat : getindex1 (varbyattrib ds "latitude") with
    | error e => rw [hlat] at hok; cases hok
    | ok latvar =>
      rw [hlat] at hok
      cases htime : getindex1 (varbyattrib ds "time") with
      | error e => rw [htime] at hok; cases hok
      | ok timevar =>
        rw [htime] at hok
        cases hval : getindex1 (varbyattrib ds stdname) with
        | error e => rw [hval] at hok; cases hok
        | ok valvar =>
          rw [hval] at hok
          replace hok :
              (match shiftlonBcast ((ncread lonvar).map coalesce1) with
               | .error e => (.error e : Except JErr LoadResult2)
               | .ok obslon2 =>
                 .ok { warnings := []
                       obsval := .jarr (((ncread valvar).map coalesceNaN).map .jval)
                       obslon := .jarr (obslon2.map .jval)
                       obslat := .jarr (((ncread latvar).map coalesce1).map optJVal)
                       obstime := .jarr (((ncread timevar).map coalesce1).map optJVal) }) =
                .ok r := hok
          cases hsh : shiftlonBcast ((ncread lonvar).map coalesce1) with
          | error e => rw [hsh] at hok; cases hok
          | ok obslon2 =>
            rw [hsh] at hok
            refine ⟨valvar, ((ncread valvar).map coalesceNaN).map .jval, rfl,
              ?_, ?_⟩
            · rw [← Except.ok.inj hok]
            · intro x hx
              rw [List.mem_map] at hx
              obtain ⟨y, hy, rfl⟩ := hx
              rw [List.mem_map] at hy
              obtain ⟨z, hz, rfl⟩ := hy
              rcases ncread_mem valvar z hz with hnone | ⟨q, hq, hqf⟩
              · subst hnone
                left
                rfl
              · subst hq
                right
                exact ⟨q, rfl, hqf⟩

/-- A dataset whose sea surface height variable declares fill value 99 and
stores one real measurement and one fill code. -/
def ds7 : Dataset2 :=
  { vars := [ { standard_name := "longitude", fillvalue := none, data := [10, 20] },
              { standard_name := "latitude", fillvalue := none, data := [43, 44] },
              { standard_name := "time", fillvalue := none, data := [5, 6] },
              { standard_name := "sea_surface_height_above_sea_level",
                fillvalue := some 99, data := [3, 99] } ] }

/-- File system exposing `ds7` under every path. -/
def fs7 : String → Option Dataset2 := fun _ => some ds7

/-- The batch the loader produces from `ds7`: the stored fill code 99 has
become the NaN sentinel. -/
def r7 : LoadResult2 :=
  { warnings := []
    obsval := .jarr [.jval (.real 3), .jval .nan]
    obslon := .jarr [.jval 10, .jval 20]
    obslat := .jarr [.jval 43, .jval 44]
    obstime := .jarr [.jval 5, .jval 6] }

/-- C7 witness at the concrete dataset `ds7`. -/
theorem c7_fill_sentinel_witness :
    ∃ valvar xs,
      getindex1 (varbyattrib ds7 "sea_surface_height_above_sea_level") =
        .ok valvar ∧
      r7.obsval = .jarr xs ∧
      ∀ x ∈ xs, x = .jval .nan ∨
        ∃ q, x = .jval (.real q) ∧ some q ≠ valvar.fillvalue :=
  c7_fill_sentinel fs7 "adt_20140525.nc" "sea_surface_height_above_sea_level"
    ds7 r7 rfl rfl

/-- The first module's vcat loop appends the per-file columns of its remaining
files, in order, onto vector accumulators. -/
lemma vcatloop1_append (fs : String → Option Dataset1) (varname : String)
    (rest : List String) :
    ∀ (w : List String) (a b c d e2 : List (JVal ℚ)),
      (∀ g ∈ rest, ∃ v l la dep t, loadaviso_alongtrack fs g varname =
          .ok { warnings := [], obsval := .jarr v, obslon := .jarr l,
                obslat := .jarr la, obsdepth := .jarr dep,
                obstime := .jarr t }) →
      loadaviso_alongtrack_vcatloop fs varname
          { warnings := w, obsval := .jarr a, obslon := .jarr b,
            obslat := .jarr c, obsdepth := .jarr d, obstime := .jarr e2 }
          rest =
        .ok { warnings := w,
              obsval := .jarr (a ++ rest.flatMap (vals1 fs varname)),
              obslon := .jarr (b ++ rest.flatMap (lons1 fs varname)),
              obslat := .jarr (c ++ rest.flatMap (lats1 fs varname)),
              obsdepth := .jarr (d ++ rest.flatMap (depths1 fs varname)),
              obstime := .jarr (e2 ++ rest.flatMap (times1 fs varname)) } := by
  induction rest with
  | nil =>
    intro w a b c d e2 hok
    simp [loadaviso_alongtrack_vcatloop]
  | cons g tl ih =>
    intro w a b c d e2 hok
    obtain ⟨v, l, la, dep, t, hg⟩ := hok g (by simp)
    have htl : ∀ g2 ∈ tl, ∃ v2 l2 la2 dep2 t2,
        loadaviso_alongtrack fs g2 varname =
          .ok { warnings := [], obsval := .jarr v2, obslon := .jarr l2,
                obslat := .jarr la2, obsdepth := .jarr dep2,
                obstime := .jarr t2 } :=
      fun g2 h2 => hok g2 (by simp [h2])
    have hv : vals1 fs varname g = v := by simp [vals1, hg, JCol.elems]
    have hl : lons1 fs varname g = l := by simp [lons1, hg, JCol.elems]
    have hla : lats1 fs varname g = la := by simp [lats1, hg, JCol.elems]
    have hdep : depths1 fs varname g = dep := by
      simp [depths1, hg, JCol.elems]
    have ht : times1 fs varname g = t := by simp [times1, hg, JCol.elems]
    have hstep : loadaviso_alongtrack_vcatloop fs varname
        { warnings := w, obsval := .jarr a, obslon := .jarr b,
          obslat := .jarr c, obsdepth := .jarr d, obstime := .jarr e2 }
        (g :: tl) =
        loadaviso_alongtrack_vcatloop fs varname
        { warnings := w, obsval := .jarr (a ++ v), obslon := .jarr (b ++ l),
          obslat := .jarr (c ++ la), obsdepth := .jarr (d ++ dep),
          obstime := .jarr (e2 ++ t) } tl := by
      simp only [loadaviso_alongtrack_vcatloop, hg, vcat]
    rw [hstep, ih w (a ++ v) (b ++ l) (c ++ la) (d ++ dep) (e2 ++ t) htl]
    simp only [List.flatMap_cons, hv, hl, hla, hdep, ht, List.append_assoc]

/-- The second module's vcat loop appends the per-file columns of its
remaining files, in order, onto vector accumulators. -/
lemma vcatloop2_append (fs : String → Option Dataset2) (stdname : String)
    (rest : List String) :
    ∀ (w : List String) (a : List (JVal RFloat)) (b c d : List (JVal ℚ)),
      (∀ g ∈ rest, ∃ v l la t, loadaviso_alongtrack2 fs g stdname =
          .ok { warnings := [], obsval := .jarr v, obslon := .jarr l,
                obslat := .jarr la, obstime := .jarr t }) →
      loadaviso_alongtrack2_vcatloop fs stdname
          { warnings := w, obsval := .jarr a, obslon := .jarr b,
            obslat := .jarr c, obstime := .jarr d } rest =
        .ok { warnings := w,
              obsval := .jarr (a ++ rest.flatMap (vals2 fs stdname)),
              obslon := .jarr (b ++ rest.flatMap (lons2 fs stdname)),
              obslat := .jarr (c ++ rest.flatMap (lats2 fs stdname)),
              obstime := .jarr (d ++ rest.flatMap (times2 fs stdname)) } := by
  induction rest with
  | nil =>
    intro w a b c d hok
    simp [loadaviso_alongtrack2_vcatloop]
  | cons g tl ih =>
    intro w a b c d hok
    obtain ⟨v, l, la, t, hg⟩ := hok g (by simp)
    have htl : ∀ g2 ∈ tl, ∃ v2 l2 la2 t2,
        loadaviso_alongtrack2 fs g2 stdname =
          .ok { warnings := [], obsval := .jarr v2, obslon := .jarr l2,
                obslat := .jarr la2, obstime := .jarr t2 } :=
      fun g2 h2 => hok g2 (by simp [h2])
    have hv : vals2 fs stdname g = v := by simp [vals2, hg, JCol.elems]
    have hl : lons2 fs stdname g = l := by simp [lons2, hg, JCol.elems]
    have hla : lats2 fs stdname g = la := by simp [lats2, hg, JCol.elems]
    have ht : times2 fs stdname g = t := by simp [times2, hg, JCol.elems]
    have hstep : loadaviso_alongtrack2_vcatloop fs stdname
        { warnings := w, obsval := .jarr a, obslon := .jarr b,
          obslat := .jarr c, obstime := .jarr d } (g :: tl) =
        loadaviso_alongtrack2_vcatloop fs stdname
        { warnings := w, obsval := .jarr (a ++ v), obslon := .jarr (b ++ l),
          obslat := .jarr (c ++ la), obstime := .jarr (d ++ t) } tl := by
      simp only [loadaviso_alongtrack2_vcatloop, hg, vcat]
    rw [hstep, ih w (a ++ v) (b ++ l) (c ++ la) (d ++ t) htl]
    simp only [List.flatMap_cons, hv, hl, hla, ht, List.append_assoc]

/-- C5: on a nonempty list of files that each load successfully, both
modules' filelist overloads return the per-file columns concatenated in input
file order, and the total observation count is the sum of the per-file
counts. -/
theorem c5_loadmany_concat
    (fs1 : String → Option Dataset1) (varname : String) (files1 : List String)
    (fs2 : String → Option Dataset2) (stdname : String) (files2 : List String)
    (h1ne : files1 ≠ [])
    (h1ok : ∀ g ∈ files1, ∃ v l la dep t,
        loadaviso_alongtrack fs1 g varname =
          .ok { warnings := [], obsval := .jarr v, obslon := .jarr l,
                obslat := .jarr la, obsdepth := .jarr dep,
                obstime := .jarr t })
    (h2ne : files2 ≠ [])
    (h2ok : ∀ g ∈ files2, ∃ v l la t,
        loadaviso_alongtrack2 fs2 g stdname =
          .ok { warnings := [], obsval := .jarr v, obslon := .jarr l,
                obslat := .jarr la, obstime := .jarr t }) :
    (loadaviso_alongtrack_filelist fs1 files1 varname =
        .ok { warnings := [],
              obsval := .jarr (files1.flatMap (vals1 fs1 varname)),
              obslon := .jarr (files1.flatMap (lons1 fs1 varname)),
              obslat := .jarr (files1.flatMap (lats1 fs1 varname)),
              obsdepth := .jarr (files1.flatMap (depths1 fs1 varname)),
              obstime := .jarr (files1.flatMap (times1 fs1 varname)) } ∧
      (files1.flatMap (vals1 fs1 varname)).length =
        (files1.map (fun g => (vals1 fs1 varname g).length)).sum) ∧
    (loadaviso_alongtrack2_filelist fs2 files2 stdname =
        .ok { warnings := [],
              obsval := .jarr (files2.flatMap (vals2 fs2 stdname)),
              obslon := .jarr (files2.flatMap (lons2 fs2 stdname)),
              obslat := .jarr (files2.flatMap (lats2 fs2 stdname)),
              obstime := .jarr (files2.flatMap (times2 fs2 stdname)) } ∧
      (files2.flatMap (vals2 fs2 stdname)).length =
        (files2.map (fun g => (vals2 fs2 stdname g).length)).sum) := by
  refine ⟨⟨?_, flatMap_length_sum files1 (vals1 fs1 varname)⟩,
    ?_, flatMap_length_sum files2 (vals2 fs2 stdname)⟩
  · cases files1 with
    | nil => exact absurd rfl h1ne
    | cons f1 rest =>
      obtain ⟨v, l, la, dep, t, hf1⟩ := h1ok f1 (by simp)
      have hrest : ∀ g ∈ rest, ∃ v2 l2 la2 dep2 t2,
          loadaviso_alongtrack fs1 g varname =
            .ok { warnings := [], obsval := .jarr v2, obslon := .jarr l2,
                  obslat := .jarr la2, obsdepth := .jarr dep2,
                  obstime := .jarr t2 } :=
        fun g hg => h1ok g (by simp [hg])
      have hv : vals1 fs1 varname f1 = v := by simp [vals1, hf1, JCol.elems]
      have hl : lons1 fs1 varname f1 = l := by simp [lons1, hf1, JCol.elems]
      have hla : lats1 fs1 varname f1 = la := by
        simp [lats1, hf1, JCol.elems]
      have hdep : depths1 fs1 varname f1 = dep := by
        simp [depths1, hf1, JCol.elems]
      have ht : times1 fs1 varname f1 = t := by simp [times1, hf1, JCol.elems]
      have hred : loadaviso_alongtrack_filelist fs1 (f1 :: rest) varname =
          loadaviso_alongtrack_vcatloop fs1 varname
            { warnings := [], obsval := .jarr v, obslon := .jarr l,
              obslat := .jarr la, obsdepth := .jarr dep, obstime := .jarr t }
            rest := by
        simp only [loadaviso_alongtrack_filelist, hf1]
      rw [hred, vcatloop1_append fs1 varname rest [] v l la dep t hrest]
      simp only [List.flatMap_cons, hv, hl, hla, hdep, ht]
  · cases files2 with
    | nil => exact absurd rfl h2ne
    | cons f1 rest =>
      obtain ⟨v, l, la, t, hf1⟩ := h2ok f1 (by simp)
      have hrest : ∀ g ∈ rest, ∃ v2 l2 la2 t2,
          loadaviso_alongtrack2 fs2 g stdname =
            .ok { warnings := [], obsval := .jarr v2, obslon := .jarr l2,
                  obslat := .jarr la2, obstime := .jarr t2 } :=
        fun g hg => h2ok g (by simp [hg])
      have hv : vals2 fs2 stdname f1 = v := by simp [vals2, hf1, JCol.elems]
      have hl : lons2 fs2 stdname f1 = l := by simp [lons2, hf1, JCol.elems]
      have hla : lats2 fs2 stdname f1 = la := by
        simp [lats2, hf1, JCol.elems]
      have ht : times2 fs2 stdname f1 = t := by simp [times2, hf1, JCol.elems]
      have hred : loadaviso_alongtrack2_filelist fs2 (f1 :: rest) stdname =
          loadaviso_alongtrack2_vcatloop fs2 stdname
            { warnings := [], obsval := .jarr v, obslon := .jarr l,
              obslat := .jarr la, obstime := .jarr t } rest := by
        simp only [loadaviso_alongtrack2_filelist, hf1]
      rw [hred, vcatloop2_append fs2 stdname rest [] v l la t hrest]
      simp only [List.flatMap_cons, hv, hl, hla, ht]

/-- Concrete first-module dataset for the concatenation witness. -/
def ds5a : Dataset1 :=
  [("longitude", [10, 20]), ("latitude", [43, 44]), ("time", [5, 6]),
   ("SLA", [1, 2])]

/-- File system exposing `ds5a` under every path. -/
def fs5a : String → Option Dataset1 := fun _ => some ds5a

/-- Concrete second-module dataset for the concatenation witness. -/
def ds5b : Dataset2 :=
  { vars := [ { standard_name := "longitude", fillvalue := none,
                data := [10, 20] },
              { standard_name := "latitude", fillvalue := none,
                data := [43, 44] },
              { standard_name := "time", fillvalue := none, data := [5, 6] },
              { standard_name := "sea_surface_height_above_sea_level",
                fillvalue := some 99, data := [3, 99] } ] }

/-- File system exposing `ds5b` under every path. -/
def fs5b : String → Option Dataset2 := fun _ => some ds5b

/-- C5 witness at concrete one-file runs of both modules. -/
theorem c5_loadmany_concat_witness :
    (loadaviso_alongtrack_filelist fs5a ["trackA.nc"] "SLA" =
        .ok { warnings := [],
              obsval := .jarr (["trackA.nc"].flatMap (vals1 fs5a "SLA")),
              obslon := .jarr (["trackA.nc"].flatMap (lons1 fs5a "SLA")),
              obslat := .jarr (["trackA.nc"].flatMap (lats1 fs5a "SLA")),
              obsdepth := .jarr (["trackA.nc"].flatMap (depths1 fs5a "SLA")),
              obstime := .jarr (["trackA.nc"].flatMap (times1 fs5a "SLA")) } ∧
      (["trackA.nc"].flatMap (vals1 fs5a "SLA")).length =
        (["trackA.nc"].map (fun g => (vals1 fs5a "SLA" g).length)).sum) ∧
    (loadaviso_alongtrack2_filelist fs5b ["trackB.nc"]
        "sea_surface_height_above_sea_level" =
        .ok { warnings := [],
              obsval := .jarr (["trackB.nc"].flatMap
                (vals2 fs5b "sea_surface_height_above_sea_level")),
              obslon := .jarr (["trackB.nc"].flatMap
                (lons2 fs5b "sea_surface_height_above_sea_level")),
              obslat := .jarr (["trackB.nc"].flatMap
                (lats2 fs5b "sea_surface_height_above_sea_level")),
              obstime := .jarr (["trackB.nc"].flatMap
                (times2 fs5b "sea_surface_height_above_sea_level")) } ∧
      (["trackB.nc"].flatMap
          (vals2 fs5b "sea_surface_height_above_sea_level")).length =
        (["trackB.nc"].map (fun g =>
          (vals2 fs5b "sea_surface_height_above_sea_level" g).length)).sum) :=
  c5_loadmany_concat fs5a "SLA" ["trackA.nc"]
    fs5b "sea_surface_height_above_sea_level" ["trackB.nc"]
    (by simp)
    (by
      intro g hg
      rw [List.mem_singleton] at hg
      subst hg
      exact ⟨[.jval 1, .jval 2], [.jval 10, .jval 20], [.jval 43, .jval 44],
        [.jval 0, .jval 0], [.jval 5, .jval 6], rfl⟩)
    (by simp)
    (by
      intro g hg
      rw [List.mem_singleton] at hg
      subst hg
      exact ⟨[.jval (.real 3), .jval .nan], [.jval 10, .jval 20],
        [.jval 43, .jval 44], [.jval 5, .jval 6], rfl⟩)
